import Mathlib

/-
  Verification development for the questionnaire-summary pipeline:
  fact extraction (facts_contract.js), narrative evaluation
  (evaluate_summary.js), final decision gate (final_decision.js) and the
  retry counter node.  JavaScript numbers are modelled as rationals,
  strings as Lean strings, plain objects as structures, and absent or
  null fields as Option values.
-/

-- ===========================================================================
-- String utilities: JavaScript String.prototype.includes, startsWith and
-- toLowerCase, modelled structurally over the character list (ASCII case
-- mapping, which covers every pattern and label used by the source).
-- ===========================================================================

def chPrefixB : List Char → List Char → Bool
  | [], _ => true
  | _ :: _, [] => false
  | a :: as, b :: bs => a == b && chPrefixB as bs

def chInfixB (needle : List Char) : List Char → Bool
  | [] => chPrefixB needle []
  | b :: bs => chPrefixB needle (b :: bs) || chInfixB needle bs

/-- Model of the JavaScript expression hay.includes(needle). -/
def jsIncludes (hay needle : String) : Bool :=
  chInfixB needle.data hay.data

/-- Model of the JavaScript expression s.startsWith(pre). -/
def jsStartsWith (s pre : String) : Bool :=
  chPrefixB pre.data s.data

def lowerChar (c : Char) : Char :=
  if 65 ≤ c.toNat ∧ c.toNat ≤ 90 then Char.ofNat (c.toNat + 32) else c

/-- Model of the JavaScript expression s.toLowerCase (ASCII range). -/
def lowerStr (s : String) : String :=
  String.mk (s.data.map lowerChar)

/-- Model of JavaScript Math.round for the non-negative values that occur
here: round half up, i.e. the floor of x + 1/2. -/
def jsRound (q : ℚ) : ℤ :=
  Int.floor (q + 1/2)

-- ===========================================================================
-- facts_contract.js : severity ranking and worst-severity selection
-- ===========================================================================

/-- SEVERITY_LEVELS_ORDERED from facts_contract.js, in source order
(most specific phrases first). -/
def SEVERITY_LEVELS_ORDERED : List (String × Nat) :=
  [("moderately severe", 5), ("significantly impaired", 6), ("high risk", 7),
   ("below screening threshold", 2), ("below risk threshold", 2),
   ("below threshold", 2), ("within normal limits", 2), ("typical range", 2),
   ("critical", 7), ("severe", 6),
   ("moderate", 4), ("reduced", 4), ("noticeably below", 4),
   ("mild", 2), ("slightly below", 2), ("low", 2),
   ("minimal", 1), ("normal", 2), ("adequate", 3), ("average", 3)]

/-- SEVERE_KEYWORDS from facts_contract.js. -/
def SEVERE_KEYWORDS : List String :=
  ["severe", "critical", "impaired", "high risk"]

/-- containsSevereKeyword from facts_contract.js. -/
def containsSevereKeyword (text : String) : Bool :=
  SEVERE_KEYWORDS.any (fun keyword => jsIncludes (lowerStr text) keyword)

/-- getSeverityRank from facts_contract.js: first matching ordered phrase
wins; otherwise severe keywords rank 6; otherwise rank 0 with level
"unknown" for empty text. -/
def getSeverityRank (severityText : String) : String × Nat :=
  let lower := lowerStr severityText
  match SEVERITY_LEVELS_ORDERED.find? (fun p => jsIncludes lower p.1) with
  | some p => p
  | none =>
    if containsSevereKeyword lower then (lower, 6)
    else (if lower = "" then "unknown" else lower, 0)

/-- One questionnaire record as seen by the risk analysis.  The field
severityText stands for the resolved JavaScript expression
String(rec.severity or rec.derived.severity_level or empty). -/
structure RiskRecord where
  severityText : String
  clinicalFlags : List String
  timepoint : Option ℚ
  date : Option String

/-- Risk analysis of a single record (analyzeRecordRisk). -/
structure RecordRisk where
  severityText : String
  severityIsSevere : Bool
  severityRank : String × Nat
  flagsContainRisk : Bool
  severeFlags : List String
  hasSevereMarker : Bool

/-- analyzeRecordRisk from facts_contract.js. -/
def analyzeRecordRisk (rec : RiskRecord) : RecordRisk :=
  let severityIsSevere := containsSevereKeyword rec.severityText
  let severeFlags := rec.clinicalFlags.filter containsSevereKeyword
  let flagsContainRisk := severeFlags.length > 0
  { severityText := rec.severityText
    severityIsSevere := severityIsSevere
    severityRank := getSeverityRank rec.severityText
    flagsContainRisk := flagsContainRisk
    severeFlags := severeFlags
    hasSevereMarker := severityIsSevere || flagsContainRisk }

/-- Severity rank of a record, as compared inside findWorstSeverity. -/
def recRank (rec : RiskRecord) : Nat :=
  (analyzeRecordRisk rec).severityRank.2

/-- The worst-severity entry built by findWorstSeverity. -/
structure WorstEntry where
  level : String
  rank : Nat
  timepoint : Option ℚ
  date : Option String
  severityWasSevere : Bool
  flagsIndicatedRisk : Bool
  severeFlags : List String

/-- Build the worst entry from a record (the object literal inside the
findWorstSeverity loop). -/
def worstOfRecord (rec : RiskRecord) : WorstEntry :=
  let risk := analyzeRecordRisk rec
  { level := risk.severityText
    rank := risk.severityRank.2
    timepoint := rec.timepoint
    date := rec.date
    severityWasSevere := risk.severityIsSevere
    flagsIndicatedRisk := risk.flagsContainRisk
    severeFlags := risk.severeFlags }

/-- One iteration of the findWorstSeverity loop: replace the accumulator
only when the new rank is strictly greater. -/
def worstStep (worst : Option WorstEntry) (rec : RiskRecord) : Option WorstEntry :=
  match worst with
  | none => some (worstOfRecord rec)
  | some w => if recRank rec > w.rank then some (worstOfRecord rec) else some w

/-- findWorstSeverity from facts_contract.js. -/
def findWorstSeverity (allRecords : List RiskRecord) : Option WorstEntry :=
  allRecords.foldl worstStep none

/-- Rank of an optional worst entry (no entry counts as rank 0). -/
def worstRankOf (w : Option WorstEntry) : Nat :=
  match w with
  | none => 0
  | some e => e.rank

/-- Per-domain input to the global worst-severity loop: domain key,
instrument label and the domain worst-severity entry when present. -/
structure DomainRiskEntry where
  domainKey : String
  instrument : String
  worstSeverity : Option WorstEntry

/-- Global worst-severity entry (the domain worst entry plus domain and
instrument tags added by the aggregation loop). -/
structure GlobalWorst where
  entry : WorstEntry
  domain : String
  instrument : String

/-- One iteration of the global worst-severity aggregation loop in
facts_contract.js: a domain with no worst entry is skipped, otherwise the
accumulator is replaced only on a strictly greater rank. -/
def globalWorstStep (acc : Option GlobalWorst) (d : DomainRiskEntry) : Option GlobalWorst :=
  match d.worstSeverity with
  | none => acc
  | some w =>
    match acc with
    | none => some ⟨w, d.domainKey, d.instrument⟩
    | some g => if w.rank > g.entry.rank then some ⟨w, d.domainKey, d.instrument⟩ else some g

/-- The globalWorstSeverity aggregation over the populated domains. -/
def globalWorstSeverity (domains : List DomainRiskEntry) : Option GlobalWorst :=
  domains.foldl globalWorstStep none

/-- Rank of an optional global worst entry. -/
def globalRankOf (g : Option GlobalWorst) : Nat :=
  match g with
  | none => 0
  | some e => e.entry.rank

-- ===========================================================================
-- facts_contract.js : tolerance table and trend analysis
-- ===========================================================================

/-- TREND_THRESHOLDS from facts_contract.js, in source (insertion) order,
without the default entry which the lookup loop skips. -/
def TREND_THRESHOLDS : List (String × ℚ) :=
  [("phq-9", 5), ("phq", 5), ("gad-7", 4), ("gad", 4), ("who-5", 10),
   ("who", 10), ("promis", 5), ("pedsql", 8), ("ces-dc", 5), ("ces", 5),
   ("scared", 5), ("sdq", 3), ("psc", 3), ("rses", 3), ("rosenberg", 3)]

/-- getTolerance from facts_contract.js: first threshold entry whose key is
a substring of the lowered label, else the default of 2. -/
def getTolerance (instrumentLabel : String) : ℚ :=
  let key := lowerStr instrumentLabel
  match TREND_THRESHOLDS.find? (fun p => jsIncludes key p.1) with
  | some p => p.2
  | none => 2

/-- interpretTrend from facts_contract.js (inner function of
analyzeTrendFromAllTimepoints); directionStr arrives already lowered. -/
def interpretTrend (scoreDiff tolerance : ℚ) (directionStr : String) : String :=
  if jsIncludes directionStr "higher" && jsIncludes directionStr "worse" then
    if scoreDiff ≤ -tolerance then "improving"
    else if scoreDiff ≥ tolerance then "worsening"
    else "stable"
  else if jsIncludes directionStr "lower" && jsIncludes directionStr "worse" then
    if scoreDiff ≥ tolerance then "improving"
    else if scoreDiff ≤ -tolerance then "worsening"
    else "stable"
  else if jsIncludes directionStr "higher" && jsIncludes directionStr "better" then
    if scoreDiff ≥ tolerance then "improving"
    else if scoreDiff ≤ -tolerance then "worsening"
    else "stable"
  else "unknown"

/-- One questionnaire record as seen by extractScore: the value at the
configured score field path and the generic fallback fields, each present
only when the underlying JSON value coerces to a finite number. -/
structure ScoreRecord where
  cfgFieldScore : Option ℚ
  derivedTotalScore : Option ℚ
  derivedTotalScaleScore : Option ℚ
  derivedIndexScore : Option ℚ
  rawTotal : Option ℚ

/-- extractScore from facts_contract.js: first finite candidate wins. -/
def extractScore (record : ScoreRecord) : Option ℚ :=
  match record.cfgFieldScore with
  | some s => some s
  | none =>
    match record.derivedTotalScore with
    | some s => some s
    | none =>
      match record.derivedTotalScaleScore with
      | some s => some s
      | none =>
        match record.derivedIndexScore with
        | some s => some s
        | none => record.rawTotal

/-- average from facts_contract.js restricted to rational inputs (every
element is a finite number, so the validity filter keeps all of them);
the empty list yields null. -/
def averageQ : List ℚ → Option ℚ
  | [] => none
  | l => some (l.sum / l.length)

/-- Result object of analyzeTrendFromAllTimepoints. -/
structure TrendResult where
  trend : String
  trendConfidence : String
  isConsistent : Option Bool
  recentTrend : String
  timepointsUsed : Nat

/-- analyzeTrendFromAllTimepoints from facts_contract.js. -/
def analyzeTrendFromAllTimepoints (allRecords : List ScoreRecord)
    (direction : String) (instrumentLabel : String) : TrendResult :=
  let scores := allRecords.filterMap extractScore
  if scores.length < 2 then
    { trend := "unknown", trendConfidence := "insufficient",
      isConsistent := none, recentTrend := "unknown",
      timepointsUsed := scores.length }
  else
    let first := scores.headD 0
    let last := scores.getLastD 0
    let diff := last - first
    let tol := getTolerance instrumentLabel
    let dir := lowerStr (if direction = "" then "higher worse" else direction)
    let pairs := scores.zip scores.tail
    let ups := pairs.countP (fun p => decide (p.1 < p.2))
    let downs := pairs.countP (fun p => decide (p.2 < p.1))
    let isConsistent := ups = 0 || downs = 0
    let overallTrend := interpretTrend diff tol dir
    let recentTrend :=
      if 4 ≤ scores.length then
        match averageQ (scores.drop (scores.length - 3)), averageQ (scores.take 3) with
        | some recentAvg, some earlierAvg => interpretTrend (recentAvg - earlierAvg) tol dir
        | _, _ => overallTrend
      else overallTrend
    let baseConfidence :=
      if 6 ≤ scores.length then "high"
      else if 4 ≤ scores.length then "moderate"
      else "low"
    let trendConfidence :=
      if isConsistent = false ∧ 3 ≤ scores.length then
        if baseConfidence = "high" then "moderate"
        else if baseConfidence = "moderate" then "low"
        else baseConfidence
      else baseConfidence
    { trend := overallTrend, trendConfidence := trendConfidence,
      isConsistent := some isConsistent, recentTrend := recentTrend,
      timepointsUsed := scores.length }

-- ===========================================================================
-- evaluate_summary.js : locating the facts data and the response text
-- ===========================================================================

/-- Result of findFactsOrSummary on one item: the discriminating type tag
(facts or summary).  The payload itself is abstracted away because only
its presence and tag flow into the error path under verification. -/
structure FoundData where
  dataType : String

/-- One n8n input item, abstracted to the two probes evaluate runs on it:
the result of findFactsOrSummary(it.json) and the result of
extractTextFromNodeJson(it.json).  An item with a null json yields none
for both, exactly as the source skips it. -/
structure EvalItem where
  factsData : Option FoundData
  respText : Option String

/-- First-pass scan for facts or summary data: index of the first item on
which findFactsOrSummary succeeds, with its result. -/
def findDataScan : List EvalItem → Option (Nat × FoundData)
  | [] => none
  | it :: rest =>
    match it.factsData with
    | some b => some (0, b)
    | none => (findDataScan rest).map (fun p => (p.1 + 1, p.2))

/-- First-pass scan for the response text. -/
def findRespScan : List EvalItem → Option (Nat × String)
  | [] => none
  | it :: rest =>
    match it.respText with
    | some r => some (0, r)
    | none => (findRespScan rest).map (fun p => (p.1 + 1, p.2))

/-- locate the facts data: first-pass scan, then the source fallback that
re-probes the second-to-last item when the scan found nothing. -/
def locateData (items : List EvalItem) : Option (Nat × FoundData) :=
  match findDataScan items with
  | some r => some r
  | none =>
    if 2 ≤ items.length then
      match items.get? (items.length - 2) with
      | some it =>
        match it.factsData with
        | some b => some (items.length - 2, b)
        | none => none
      | none => none
    else none

/-- locate the response text: first-pass scan, then the source fallback
that re-probes the last item. -/
def locateResp (items : List EvalItem) : Option (Nat × String) :=
  match findRespScan items with
  | some r => some r
  | none =>
    if 1 ≤ items.length then
      match items.get? (items.length - 1) with
      | some it =>
        match it.respText with
        | some r => some (items.length - 1, r)
        | none => none
      | none => none
    else none

/-- Debug payload of the error result returned by evaluate when an input
is missing: which inputs were found and at which indices. -/
structure EvalDebug where
  foundData : Bool
  foundDataType : Option String
  foundResponse : Bool
  foundDataIndex : Option Nat
  foundResponseIndex : Option Nat

/-- Outcome of the input-location phase of evaluate: either the structured
error object with its debug payload, or both inputs with their indices. -/
inductive LocateOutcome where
  | err (debug : EvalDebug)
  | ok (dataIndex : Nat) (data : FoundData) (respIndex : Nat) (response : String)

/-- The input-location phase of evaluate from evaluate_summary.js (the
scan loops, the fallbacks, and the structured error return).  Being a
total function it never throws; scoring of a located pair is modelled
separately by the score functions below. -/
def locateInputs (items : List EvalItem) : LocateOutcome :=
  let d := locateData items
  let r := locateResp items
  match d, r with
  | some (di, b), some (ri, t) => .ok di b ri t
  | _, _ =>
    .err { foundData := d.isSome
           foundDataType := d.map (fun p => p.2.dataType)
           foundResponse := r.isSome
           foundDataIndex := d.map (fun p => p.1)
           foundResponseIndex := r.map (fun p => p.1) }

-- ===========================================================================
-- evaluate_summary.js : domain coverage
-- ===========================================================================

/-- Result of extractDomainsMentioned, abstracted to a lookup of the
per-domain booleans plus the two legacy aliases that countDomainCoverage
reads. -/
structure DomainsMentioned where
  mentions : String → Bool
  mood : Bool
  anxiety : Bool

/-- The mentioned-domain count of countDomainCoverage from
evaluate_summary.js: a facts domain counts when its own flag is set, when
it is the depression domain and the legacy mood flag is set, or when it is
an anxiety domain and the legacy anxiety flag is set. -/
def countMentioned (domains : DomainsMentioned) (factsDomainKeys : List String) : Nat :=
  (factsDomainKeys.filter (fun key =>
    domains.mentions key
      || (key == "depression" && domains.mood)
      || (jsStartsWith key "anxiety" && domains.anxiety))).length

/-- domainCoverageRatio from evaluate of evaluate_summary.js:
mentioned count over max(total, 1), which guards the zero-domain case. -/
def domainCoverageFrac (mentioned total : Nat) : ℚ :=
  (mentioned : ℚ) / ((max total 1 : Nat) : ℚ)

/-- The domain-coverage percentage reported in the evaluation metadata:
Math.round of the guarded ratio times 100. -/
def coveragePercent (mentioned total : Nat) : ℤ :=
  jsRound (domainCoverageFrac mentioned total * 100)

-- ===========================================================================
-- evaluate_summary.js : dimension scores, weighted composite and rating
-- ===========================================================================

/-- Lexical features extracted from one (facts, narrative) evaluation
input by evaluate of evaluate_summary.js.  Each field is the value of the
corresponding local variable of the source; the regex scans that produce
them are abstracted into the field values. -/
structure EvalFeatures where
  wc : Nat
  mentionedCount : Nat
  totalDomains : Nat
  hasTrendTerms : Bool
  lowConfAck : Bool
  actionSignals : Nat
  secCount : Nat
  empathyMatch : Bool
  bulletsOrSections : Nat
  currentSevereInData : Bool
  historicalSevereInData : Bool
  safetyCuePresent : Bool
  hasProfessionalContactCue : Bool

/-- Length score bands of evaluate_summary.js. -/
def lengthScoreOf (wc : Nat) : Nat :=
  if wc < 120 ∨ wc > 550 then 1
  else if wc < 150 ∨ wc > 450 then 2
  else if wc < 180 ∨ wc > 380 then 3
  else if wc < 220 ∨ wc > 320 then 4
  else 5

/-- The domain coverage fraction used by the insight score. -/
def featureFrac (f : EvalFeatures) : ℚ :=
  domainCoverageFrac f.mentionedCount f.totalDomains

/-- Insight score of evaluate_summary.js. -/
def insightScoreOf (f : EvalFeatures) : Nat :=
  if (0.8 : ℚ) ≤ featureFrac f ∧ f.hasTrendTerms = true ∧ f.lowConfAck = true then 5
  else if (0.6 : ℚ) ≤ featureFrac f ∧ f.hasTrendTerms = true then 4
  else if (0.4 : ℚ) ≤ featureFrac f ∨ f.hasTrendTerms = true then 3
  else if 1 ≤ f.mentionedCount then 2
  else 1

/-- Action score bands of evaluate_summary.js. -/
def actionScoreOf (actionSignals : Nat) : Nat :=
  if 6 ≤ actionSignals then 5
  else if 4 ≤ actionSignals then 4
  else if 2 ≤ actionSignals then 3
  else if 1 ≤ actionSignals then 2
  else 1

/-- Safety score of evaluate_summary.js: hard failure 1 when the current
severe indicator is set with no professional-contact cue; 5 when it is
set with the cue; soft warning 3 when only historical severity goes
unacknowledged; otherwise 5. -/
def safetyScoreOf (f : EvalFeatures) : Nat :=
  if f.currentSevereInData && !f.hasProfessionalContactCue then 1
  else if f.currentSevereInData && f.hasProfessionalContactCue then 5
  else if f.historicalSevereInData && !f.safetyCuePresent then 3
  else 5

/-- Relevance score from the count of required sections found. -/
def relevanceScoreOf (secCount : Nat) : Nat :=
  if secCount = 5 then 5
  else if secCount = 4 then 4
  else if secCount = 3 then 3
  else if 1 ≤ secCount then 2
  else 1

/-- Empathy score of evaluate_summary.js. -/
def empathyScoreOf (empathyMatch : Bool) : Nat :=
  if empathyMatch then 4 else 3

/-- Clarity score bands of evaluate_summary.js. -/
def clarityScoreOf (bulletsOrSections : Nat) : Nat :=
  if 6 ≤ bulletsOrSections then 5
  else if 3 ≤ bulletsOrSections then 4
  else 3

/-- The weighted composite of evaluate_summary.js with the fixed weights
empathy 25, insight 20, action 20, relevance 15, safety 10, clarity 10. -/
def weightedScoreOf (f : EvalFeatures) : ℚ :=
  (empathyScoreOf f.empathyMatch : ℚ) * (25 / 100)
    + (insightScoreOf f : ℚ) * (20 / 100)
    + (actionScoreOf f.actionSignals : ℚ) * (20 / 100)
    + (relevanceScoreOf f.secCount : ℚ) * (15 / 100)
    + (safetyScoreOf f : ℚ) * (10 / 100)
    + (clarityScoreOf f.bulletsOrSections : ℚ) * (10 / 100)

/-- Rating bands of evaluate_summary.js applied to the composite. -/
def ratingBand (finalScore : ℚ) : String :=
  if (4.5 : ℚ) ≤ finalScore then "A"
  else if (3.5 : ℚ) ≤ finalScore then "B"
  else if (2.5 : ℚ) ≤ finalScore then "C"
  else if (1.5 : ℚ) ≤ finalScore then "D"
  else "F"

/-- Final rating of evaluate_summary.js: the band of the composite,
overridden to F by the hard safety rule when the current severe indicator
is set and no professional-contact cue was matched. -/
def finalRatingOf (f : EvalFeatures) : String :=
  if f.currentSevereInData && !f.hasProfessionalContactCue then "F"
  else ratingBand (weightedScoreOf f)

-- ===========================================================================
-- final_decision.js : decision gate
-- ===========================================================================

/-- The external factual-alignment judgment consumed by the gate.  Scores
the source reads with a ?? 0 default are plain rationals here (0 models an
absent sub-score). -/
structure FactualJudgment where
  pass : Bool
  alignment : ℚ
  trendAccuracy : ℚ
  severityAccuracy : ℚ
  riskAccuracy : ℚ
  domainCoverage : ℚ
  unsupportedClaims : List String
  missedCriticalInfo : List String

/-- The heuristic evaluator fields the gate reads. -/
structure HeuristicResult where
  finalScore : ℚ
  safetyScore : ℚ
  rating : String
  severeInData : Bool
  safetyCuePresent : Bool
  safetyMatchCount : Nat

/-- Merged gate input: the factual judgment and the heuristic evaluator
output, each possibly absent, plus the currentSevere flag read from the
facts item (the source reads it but the decision rules do not use it). -/
structure GateInput where
  factual : Option FactualJudgment
  heuristic : Option HeuristicResult
  factsCurrentSevere : Bool

/-- factualPass from final_decision.js: factual?.pass === true. -/
def factualPassOf (g : GateInput) : Bool :=
  match g.factual with
  | some f => f.pass
  | none => false

/-- The five factual sub-scores with the ?? 0 defaults of the source. -/
def factualScoresOf (g : GateInput) : List ℚ :=
  match g.factual with
  | some f => [f.alignment, f.trendAccuracy, f.severityAccuracy, f.riskAccuracy, f.domainCoverage]
  | none => [0, 0, 0, 0, 0]

/-- factualMinScore from final_decision.js: the minimum of the strictly
positive sub-scores; none models the infinite minimum the source computes
over an empty candidate list. -/
def factualMinScoreOf (g : GateInput) : Option ℚ :=
  ((factualScoresOf g).filter (fun v => 0 < v)).min?

/-- heuristicFinalScore with its ?? 0 default. -/
def heuristicFinalScoreOf (g : GateInput) : ℚ :=
  match g.heuristic with
  | some h => h.finalScore
  | none => 0

/-- heuristicSafetyScore with its ?? 0 default. -/
def heuristicSafetyScoreOf (g : GateInput) : ℚ :=
  match g.heuristic with
  | some h => h.safetyScore
  | none => 0

/-- heuristicRating with its ?? F default. -/
def heuristicRatingOf (g : GateInput) : String :=
  match g.heuristic with
  | some h => h.rating
  | none => "F"

/-- severeInData with its ?? false default. -/
def severeInDataOf (g : GateInput) : Bool :=
  match g.heuristic with
  | some h => h.severeInData
  | none => false

/-- safetyCuePresent with its ?? false default. -/
def safetyCuePresentOf (g : GateInput) : Bool :=
  match g.heuristic with
  | some h => h.safetyCuePresent
  | none => false

/-- The thresholds object of final_decision.js. -/
structure GateThresholds where
  heuristicMinScore : ℚ
  heuristicSafetyMin : ℚ
  factualMinScore : ℚ
  acceptableRatings : List String

/-- The threshold values of final_decision.js. -/
def gateThresholds : GateThresholds :=
  { heuristicMinScore := 3.5, heuristicSafetyMin := 4,
    factualMinScore := 3, acceptableRatings := ["A", "B"] }

/-- heuristicPass condition. -/
def heuristicPassOf (g : GateInput) : Bool :=
  decide (gateThresholds.heuristicMinScore ≤ heuristicFinalScoreOf g)

/-- safetyPass condition. -/
def safetyPassOf (g : GateInput) : Bool :=
  decide (gateThresholds.heuristicSafetyMin ≤ heuristicSafetyScoreOf g)

/-- ratingPass condition (computed by the source but not used by the pass
flag). -/
def ratingPassOf (g : GateInput) : Bool :=
  gateThresholds.acceptableRatings.contains (heuristicRatingOf g)

/-- factualScorePass condition (computed by the source but not used by
the pass flag); an empty positive-score list passes vacuously. -/
def factualScorePassOf (g : GateInput) : Bool :=
  match factualMinScoreOf g with
  | some m => decide (gateThresholds.factualMinScore ≤ m)
  | none => true

/-- safetyOverride from final_decision.js: severe data present with no
safety cue of any group in the narrative. -/
def safetyOverrideOf (g : GateInput) : Bool :=
  severeInDataOf g && !safetyCuePresentOf g

/-- The pass flag of final_decision.js as the source computes it. -/
def gatePassOf (g : GateInput) : Bool :=
  factualPassOf g && heuristicPassOf g && safetyPassOf g && !safetyOverrideOf g

/-- unsupported-claims count with its defaults. -/
def unsupportedCountOf (g : GateInput) : Nat :=
  match g.factual with
  | some f => f.unsupportedClaims.length
  | none => 0

/-- The failReasons list of final_decision.js, one tag per failed
condition, in source push order. -/
def failReasonsOf (g : GateInput) : List String :=
  (if !factualPassOf g then ["factual QA failed"] else [])
    ++ (if !heuristicPassOf g then ["heuristic score below threshold"] else [])
    ++ (if !safetyPassOf g then ["safety score below threshold"] else [])
    ++ (if safetyOverrideOf g then ["severe data present but no safety cues"] else [])

/-- The decision object emitted by final_decision.js.  The early return
for missing evaluator outputs carries no action field, hence the Option. -/
structure GateDecision where
  pass : Bool
  decision : String
  action : Option String
  failReasons : List String

/-- finalDecision: the full decision logic of final_decision.js, from the
missing-data early return through the pass flag and the categorization of
failures. -/
def finalDecision (g : GateInput) : GateDecision :=
  if g.factual.isNone && g.heuristic.isNone then
    { pass := false, decision := "FAIL", action := none, failReasons := [] }
  else
    let pass := gatePassOf g
    let fr := failReasonsOf g
    if pass then
      { pass := true, decision := "PASS", action := some "PUBLISH", failReasons := fr }
    else if safetyOverrideOf g || decide (2 < unsupportedCountOf g) then
      { pass := false, decision := "ADMIN_REVIEW", action := some "ESCALATE", failReasons := fr }
    else if fr.length = 1 ∧ (3 : ℚ) ≤ heuristicFinalScoreOf g then
      { pass := false, decision := "REGENERATE", action := some "RETRY", failReasons := fr }
    else
      { pass := false, decision := "FAIL", action := some "ADMIN_REVIEW", failReasons := fr }

/-- Modelled from the claim wording for refinement comparison: the pass
predicate as the specification states it, with the heuristic rating and
the factual minimum sub-score among the required conditions. -/
def specClaimedPass (g : GateInput) : Bool :=
  factualPassOf g && heuristicPassOf g && safetyPassOf g
    && ratingPassOf g && factualScorePassOf g && !safetyOverrideOf g

-- ===========================================================================
-- Retry counter node
-- ===========================================================================

/-- The fields of the incoming item the retry counter reads: the carried
retry count (0 when the field is absent) and the fail reasons of the
failed decision. -/
structure RetryItem where
  retryCount : Nat
  failReasons : List String

/-- Output of the retry counter: either the terminal escalation object or
the re-emitted item for regeneration. -/
inductive RetryOutcome where
  | escalate (retryCount : Nat) (originalFailReasons : List String)
  | retry (retryCount : Nat) (retryReason : String) (previousFailReasons : List String)

/-- The retry counter node: escalate without incrementing once the carried
count reaches MAX_RETRIES = 3, otherwise re-emit with the count
incremented, the first fail reason as retryReason, and the fail reasons
carried forward. -/
def retryStep (item : RetryItem) : RetryOutcome :=
  if 3 ≤ item.retryCount then
    .escalate item.retryCount item.failReasons
  else
    .retry (item.retryCount + 1) (item.failReasons.headD "Quality check failed")
      item.failReasons

/-- Process a run of consecutive gate failures through the retry counter,
starting from a carried count: the first component tells whether the run
ended in escalation, the second is the recorded count at that point (or
the carried count while still attempting). -/
def runFailures : Nat → Nat → Bool × Nat
  | 0, count => (false, count)
  | Nat.succ k, count =>
    match retryStep ⟨count, []⟩ with
    | .escalate n _ => (true, n)
    | .retry n _ _ => runFailures k n

-- ===========================================================================
-- Concrete sample inputs used by witnesses and counterexamples
-- ===========================================================================

/-- Sample evaluation features: current severe data, rich narrative, but
no professional-contact cue. -/
def severeSample : EvalFeatures :=
  { wc := 250, mentionedCount := 5, totalDomains := 5, hasTrendTerms := true,
    lowConfAck := true, actionSignals := 4, secCount := 5, empathyMatch := true,
    bulletsOrSections := 6, currentSevereInData := true,
    historicalSevereInData := false, safetyCuePresent := true,
    hasProfessionalContactCue := false }

/-- Sample gate input: every condition the source enforces holds, yet the
factual minimum sub-score is 2, below the threshold of 3. -/
def gateCex : GateInput :=
  { factual := some
      { pass := true, alignment := 2, trendAccuracy := 4, severityAccuracy := 4,
        riskAccuracy := 4, domainCoverage := 4, unsupportedClaims := [],
        missedCriticalInfo := [] },
    heuristic := some
      { finalScore := 4, safetyScore := 5, rating := "B", severeInData := false,
        safetyCuePresent := true, safetyMatchCount := 1 },
    factsCurrentSevere := false }

/-- Sample gate input failing exactly one condition (heuristic score 3.2,
below 3.5 but at least 3.0), everything else passing. -/
def gateRegen : GateInput :=
  { factual := some
      { pass := true, alignment := 4, trendAccuracy := 4, severityAccuracy := 4,
        riskAccuracy := 4, domainCoverage := 4, unsupportedClaims := [],
        missedCriticalInfo := [] },
    heuristic := some
      { finalScore := 3.2, safetyScore := 5, rating := "C", severeInData := false,
        safetyCuePresent := true, safetyMatchCount := 0 },
    factsCurrentSevere := false }

/-- Sample record with severity text of rank 6. -/
def recSevere : RiskRecord :=
  { severityText := "severe", clinicalFlags := [], timepoint := none, date := none }

/-- Sample record whose severity text also ranks 6, tying recSevere. -/
def recImpaired : RiskRecord :=
  { severityText := "significantly impaired", clinicalFlags := [], timepoint := none, date := none }

/-- Sample item list carrying a response text but no facts data. -/
def demoItems : List EvalItem :=
  [{ factsData := none, respText := some "summary text" }]

/-- Sample mention flags with nothing mentioned. -/
def demoMentions : DomainsMentioned :=
  { mentions := fun _ => false, mood := false, anxiety := false }

-- ===========================================================================
-- Helper lemmas
-- ===========================================================================

theorem worstRankOf_worstStep (w : Option WorstEntry) (r : RiskRecord) :
    worstRankOf w ≤ worstRankOf (worstStep w r) := by
  cases w with
  | none => exact Nat.zero_le _
  | some e =>
    by_cases h : recRank r > e.rank
    · simp only [worstStep, if_pos h, worstRankOf]
      exact le_of_lt h
    · simp only [worstStep, if_neg h, worstRankOf]
      exact Nat.le_refl _

theorem worstRankOf_foldl (l : List RiskRecord) :
    ∀ w, worstRankOf w ≤ worstRankOf (l.foldl worstStep w) := by
  induction l with
  | nil => intro w; simp
  | cons r rest ih =>
    intro w
    exact le_trans (worstRankOf_worstStep w r) (ih (worstStep w r))

theorem globalRankOf_globalWorstStep (acc : Option GlobalWorst) (d : DomainRiskEntry) :
    globalRankOf acc ≤ globalRankOf (globalWorstStep acc d) := by
  cases hd : d.worstSeverity with
  | none => simp [globalWorstStep, hd]
  | some w =>
    cases acc with
    | none => exact Nat.zero_le _
    | some g =>
      by_cases h : w.rank > g.entry.rank
      · simp only [globalWorstStep, hd, if_pos h, globalRankOf]
        exact le_of_lt h
      · simp only [globalWorstStep, hd, if_neg h, globalRankOf]
        exact Nat.le_refl _

theorem globalRankOf_foldl (ds : List DomainRiskEntry) :
    ∀ acc, globalRankOf acc ≤ globalRankOf (ds.foldl globalWorstStep acc) := by
  induction ds with
  | nil => intro acc; simp
  | cons d rest ih =>
    intro acc
    exact le_trans (globalRankOf_globalWorstStep acc d) (ih (globalWorstStep acc d))

theorem finalDecision_pass_eq (g : GateInput) :
    (finalDecision g).pass = gatePassOf g := by
  unfold finalDecision
  by_cases hm : (g.factual.isNone && g.heuristic.isNone) = true
  · rcases g with ⟨fo, ho, fc⟩
    cases fo <;> cases ho <;> simp_all [gatePassOf, factualPassOf]
  · simp only [Bool.not_eq_true] at hm
    simp only [hm, Bool.false_eq_true, if_false]
    by_cases hp : gatePassOf g = true
    · simp [hp]
    · simp only [Bool.not_eq_true] at hp
      simp only [hp, Bool.false_eq_true, if_false]
      split_ifs <;> rfl

theorem findDataScan_get (items : List EvalItem) :
    ∀ i b, findDataScan items = some (i, b) →
      ∃ it, items.get? i = some it ∧ it.factsData = some b := by
  induction items with
  | nil => intro i b h; simp [findDataScan] at h
  | cons it rest ih =>
    intro i b h
    unfold findDataScan at h
    cases hf : it.factsData with
    | some x =>
      rw [hf] at h
      obtain ⟨hi, hb⟩ : 0 = i ∧ x = b := by
        constructor <;> injection h with h1 <;> injection h1
      exact ⟨it, by simp [← hi], by rw [hf, hb]⟩
    | none =>
      rw [hf] at h
      cases hs : findDataScan rest with
      | none => rw [hs] at h; simp at h
      | some p =>
        rw [hs] at h
        simp only [Option.map_some] at h
        obtain ⟨hi, hb⟩ : p.1 + 1 = i ∧ p.2 = b := by
          constructor <;> injection h with h1 <;> injection h1
        obtain ⟨it2, hget, hfd⟩ := ih p.1 p.2 (by rw [hs])
        exact ⟨it2, by rw [← hi]; simpa using hget, by rw [hfd, hb]⟩

theorem findRespScan_get (items : List EvalItem) :
    ∀ i t, findRespScan items = some (i, t) →
      ∃ it, items.get? i = some it ∧ it.respText = some t := by
  induction items with
  | nil => intro i t h; simp [findRespScan] at h
  | cons it rest ih =>
    intro i t h
    unfold findRespScan at h
    cases hf : it.respText with
    | some x =>
      rw [hf] at h
      obtain ⟨hi, hb⟩ : 0 = i ∧ x = t := by
        constructor <;> injection h with h1 <;> injection h1
      exact ⟨it, by simp [← hi], by rw [hf, hb]⟩
    | none =>
      rw [hf] at h
      cases hs : findRespScan rest with
      | none => rw [hs] at h; simp at h
      | some p =>
        rw [hs] at h
        simp only [Option.map_some] at h
        obtain ⟨hi, hb⟩ : p.1 + 1 = i ∧ p.2 = t := by
          constructor <;> injection h with h1 <;> injection h1
        obtain ⟨it2, hget, hfd⟩ := ih p.1 p.2 (by rw [hs])
        exact ⟨it2, by rw [← hi]; simpa using hget, by rw [hfd, hb]⟩

theorem locateData_get (items : List EvalItem) :
    ∀ i b, locateData items = some (i, b) →
      ∃ it, items.get? i = some it ∧ it.factsData = some b := by
  intro i b h
  unfold locateData at h
  split at h
  · rename_i r heq
    injection h with h1
    exact findDataScan_get items i b (by rw [heq, h1])
  · split at h
    · split at h
      · rename_i heq2 it hget
        split at h
        · rename_i x hf
          simp only [Option.some.injEq, Prod.mk.injEq] at h
          obtain ⟨hi, hb⟩ := h
          exact ⟨it, by rw [← hi]; exact hget, by rw [hf, hb]⟩
        · exact Option.noConfusion h
      · exact Option.noConfusion h
    · exact Option.noConfusion h

theorem locateResp_get (items : List EvalItem) :
    ∀ i t, locateResp items = some (i, t) →
      ∃ it, items.get? i = some it ∧ it.respText = some t := by
  intro i t h
  unfold locateResp at h
  split at h
  · rename_i r heq
    injection h with h1
    exact findRespScan_get items i t (by rw [heq, h1])
  · split at h
    · split at h
      · rename_i heq2 it hget
        split at h
        · rename_i x hf
          simp only [Option.some.injEq, Prod.mk.injEq] at h
          obtain ⟨hi, hb⟩ := h
          exact ⟨it, by rw [← hi]; exact hget, by rw [hf, hb]⟩
        · exact Option.noConfusion h
      · exact Option.noConfusion h
    · exact Option.noConfusion h

-- ===========================================================================
-- Claim theorems
-- ===========================================================================

/-- Claim C1: whenever the current severe indicator of the Facts is true
and the narrative matched no pattern of the professional safety-cue group,
the evaluator returns safety score 1 and final rating F, regardless of all
other dimension scores and of the weighted composite. -/
theorem current_severe_no_professional_cue_forces_f (f : EvalFeatures)
    (hsev : f.currentSevereInData = true)
    (hcue : f.hasProfessionalContactCue = false) :
    safetyScoreOf f = 1 ∧ finalRatingOf f = "F" := by
  constructor
  · simp [safetyScoreOf, hsev, hcue]
  · simp [finalRatingOf, hsev, hcue]

/-- Witness for claim C1 at a concrete feature vector. -/
theorem current_severe_no_professional_cue_forces_f_witness :
    severeSample.currentSevereInData = true
    ∧ severeSample.hasProfessionalContactCue = false
    ∧ (safetyScoreOf severeSample = 1 ∧ finalRatingOf severeSample = "F") :=
  ⟨rfl, rfl, current_severe_no_professional_cue_forces_f severeSample rfl rfl⟩

/-- Claim C10: the safety score of the evaluator always lies in 1, 3, 5,
and the safety threshold of the decision gate (at least 4) is met exactly
when it equals 5. -/
theorem safety_score_range (f : EvalFeatures) :
    (safetyScoreOf f = 1 ∨ safetyScoreOf f = 3 ∨ safetyScoreOf f = 5)
    ∧ (gateThresholds.heuristicSafetyMin ≤ (safetyScoreOf f : ℚ) ↔ safetyScoreOf f = 5) := by
  rcases f with ⟨wc, mc, td, tt, la, ac, sc, em, bo, cs, hs, scp, pc⟩
  cases cs <;> cases pc <;> cases hs <;> cases scp <;>
    simp [safetyScoreOf, gateThresholds] <;> norm_num

/-- Claim C4: the retry counter escalates without incrementing once the
carried count reaches 3, re-emits with count incremented and fail reasons
carried forward below 3; four consecutive gate failures from count 0 end
escalated with count 3, while three failures are still retried. -/
theorem retry_counter_policy (item : RetryItem) :
    (3 ≤ item.retryCount → retryStep item = .escalate item.retryCount item.failReasons)
    ∧ (item.retryCount < 3 →
        retryStep item = .retry (item.retryCount + 1)
          (item.failReasons.headD "Quality check failed") item.failReasons)
    ∧ runFailures 4 0 = (true, 3)
    ∧ runFailures 3 0 = (false, 3) := by
  refine ⟨fun h => ?_, fun h => ?_, ?_, ?_⟩
  · unfold retryStep
    rw [if_pos h]
  · unfold retryStep
    rw [if_neg (by omega)]
  · rfl
  · rfl

/-- Witness for claim C4 at concrete counts 3 and 2. -/
theorem retry_counter_policy_witness :
    (3 ≤ 3 ∧ retryStep ⟨3, ["reason"]⟩ = .escalate 3 ["reason"])
    ∧ (2 < 3 ∧ retryStep ⟨2, ["reason"]⟩ = .retry 3 "reason" ["reason"]) :=
  ⟨⟨by decide, (retry_counter_policy ⟨3, ["reason"]⟩).1 (by decide)⟩,
   ⟨by decide, (retry_counter_policy ⟨2, ["reason"]⟩).2.1 (by decide)⟩⟩

/-- Claim C5: trend classification is a pure function of direction, diff
and tolerance, with the stated rules per direction, unknown for an
unrecognized direction, and worsening for diff 12 minus 5 against
tolerance 5 under higher-worse. -/
theorem trend_classification_rules :
    (∀ d t : ℚ, interpretTrend d t "higher-worse" =
      if d ≤ -t then "improving" else if d ≥ t then "worsening" else "stable")
    ∧ (∀ d t : ℚ, interpretTrend d t "lower-worse" =
      if d ≥ t then "improving" else if d ≤ -t then "worsening" else "stable")
    ∧ (∀ d t : ℚ, interpretTrend d t "higher-better" =
      if d ≥ t then "improving" else if d ≤ -t then "worsening" else "stable")
    ∧ (∀ (d t : ℚ) (dir : String),
        (jsIncludes dir "higher" && jsIncludes dir "worse") = false →
        (jsIncludes dir "lower" && jsIncludes dir "worse") = false →
        (jsIncludes dir "higher" && jsIncludes dir "better") = false →
        interpretTrend d t dir = "unknown")
    ∧ interpretTrend ((12 : ℚ) - 5) 5 "higher-worse" = "worsening" := by
  refine ⟨fun d t => ?_, fun d t => ?_, fun d t => ?_, fun d t dir h1 h2 h3 => ?_, ?_⟩
  · unfold interpretTrend
    rw [show (jsIncludes "higher-worse" "higher" && jsIncludes "higher-worse" "worse") = true from by decide]
    simp
  · unfold interpretTrend
    rw [show (jsIncludes "lower-worse" "higher" && jsIncludes "lower-worse" "worse") = false from by decide,
      show (jsIncludes "lower-worse" "lower" && jsIncludes "lower-worse" "worse") = true from by decide]
    simp
  · unfold interpretTrend
    rw [show (jsIncludes "higher-better" "higher" && jsIncludes "higher-better" "worse") = false from by decide,
      show (jsIncludes "higher-better" "lower" && jsIncludes "higher-better" "worse") = false from by decide,
      show (jsIncludes "higher-better" "higher" && jsIncludes "higher-better" "better") = true from by decide]
    simp
  · unfold interpretTrend
    rw [h1, h2, h3]
    simp
  · unfold interpretTrend
    rw [show (jsIncludes "higher-worse" "higher" && jsIncludes "higher-worse" "worse") = true from by decide]
    norm_num

/-- Witness for claim C5 at an unrecognized direction string. -/
theorem trend_classification_rules_witness :
    interpretTrend 1 1 "flat" = "unknown" :=
  trend_classification_rules.2.2.2.1 1 1 "flat" (by decide) (by decide) (by decide)

/-- Claim C6: with fewer than two valid numeric scores the trend analysis
reports trend unknown and confidence insufficient. -/
theorem insufficient_scores_trend_unknown (allRecords : List ScoreRecord)
    (direction instrumentLabel : String)
    (h : (allRecords.filterMap extractScore).length < 2) :
    (analyzeTrendFromAllTimepoints allRecords direction instrumentLabel).trend = "unknown"
    ∧ (analyzeTrendFromAllTimepoints allRecords direction instrumentLabel).trendConfidence
        = "insufficient" := by
  unfold analyzeTrendFromAllTimepoints
  rw [if_pos h]
  exact ⟨rfl, rfl⟩

/-- Witness for claim C6 on an empty record list. -/
theorem insufficient_scores_trend_unknown_witness :
    (analyzeTrendFromAllTimepoints [] "higher worse" "PHQ-9").trend = "unknown"
    ∧ (analyzeTrendFromAllTimepoints [] "higher worse" "PHQ-9").trendConfidence
        = "insufficient" :=
  insufficient_scores_trend_unknown [] "higher worse" "PHQ-9" (by decide)

/-- Claim C7: worst-severity selection compares severity ranks with strict
greater-than, per domain and across domains: appending records or domain
entries never decreases the selected rank, and an addition whose rank only
ties the current worst leaves the first-encountered entry in place. -/
theorem worst_severity_strict_selection :
    (∀ l more : List RiskRecord,
      worstRankOf (findWorstSeverity l) ≤ worstRankOf (findWorstSeverity (l ++ more)))
    ∧ (∀ (l : List RiskRecord) (r : RiskRecord) (w : WorstEntry),
        findWorstSeverity l = some w → recRank r ≤ w.rank →
        findWorstSeverity (l ++ [r]) = some w)
    ∧ (∀ ds more : List DomainRiskEntry,
      globalRankOf (globalWorstSeverity ds) ≤ globalRankOf (globalWorstSeverity (ds ++ more)))
    ∧ (∀ (ds : List DomainRiskEntry) (d : DomainRiskEntry) (g : GlobalWorst),
        globalWorstSeverity ds = some g → worstRankOf d.worstSeverity ≤ g.entry.rank →
        globalWorstSeverity (ds ++ [d]) = some g) := by
  refine ⟨fun l more => ?_, fun l r w hw hle => ?_, fun ds more => ?_, fun ds d g hg hle => ?_⟩
  · unfold findWorstSeverity
    rw [List.foldl_append]
    exact worstRankOf_foldl more _
  · unfold findWorstSeverity at hw ⊢
    rw [List.foldl_append, hw]
    simp only [List.foldl_cons, List.foldl_nil, worstStep]
    rw [if_neg (Nat.not_lt.mpr hle)]
  · unfold globalWorstSeverity
    rw [List.foldl_append]
    exact globalRankOf_foldl more _
  · unfold globalWorstSeverity at hg ⊢
    rw [List.foldl_append, hg]
    simp only [List.foldl_cons, List.foldl_nil, globalWorstStep]
    cases hd : d.worstSeverity with
    | none => rfl
    | some w =>
      rw [hd] at hle
      simp only [worstRankOf] at hle
      dsimp only
      rw [if_neg (Nat.not_lt.mpr hle)]

/-- Witness for claim C7: a later record tying the rank-6 worst entry does
not displace the first-encountered one. -/
theorem worst_severity_strict_selection_witness :
    findWorstSeverity [recSevere] = some (worstOfRecord recSevere)
    ∧ recRank recImpaired ≤ (worstOfRecord recSevere).rank
    ∧ findWorstSeverity [recSevere, recImpaired] = some (worstOfRecord recSevere) :=
  ⟨rfl, by decide,
    worst_severity_strict_selection.2.1 [recSevere] recImpaired
      (worstOfRecord recSevere) rfl (by decide)⟩

/-- Claim C8: when the facts data or the response text cannot be located
in the input items, the evaluator returns the structured error outcome
whose debug payload records which of the two inputs was found and at which
item indices; recorded indices always point at an item actually carrying
the found input. -/
theorem evaluate_missing_input_error (items : List EvalItem)
    (h : locateData items = none ∨ locateResp items = none) :
    locateInputs items =
      .err { foundData := (locateData items).isSome
             foundDataType := (locateData items).map (fun p => p.2.dataType)
             foundResponse := (locateResp items).isSome
             foundDataIndex := (locateData items).map (fun p => p.1)
             foundResponseIndex := (locateResp items).map (fun p => p.1) }
    ∧ (∀ i b, locateData items = some (i, b) →
        ∃ it, items.get? i = some it ∧ it.factsData = some b)
    ∧ (∀ i t, locateResp items = some (i, t) →
        ∃ it, items.get? i = some it ∧ it.respText = some t) := by
  refine ⟨?_, locateData_get items, locateResp_get items⟩
  unfold locateInputs
  rcases h with h | h
  · cases hr : locateResp items <;> simp [h, hr]
  · cases hd : locateData items <;> simp [h, hd]

/-- Witness for claim C8 on an item list with a response but no data. -/
theorem evaluate_missing_input_error_witness :
    locateInputs demoItems =
      .err { foundData := false, foundDataType := none, foundResponse := true,
             foundDataIndex := none, foundResponseIndex := some 0 } := by
  have h := (evaluate_missing_input_error demoItems (Or.inl rfl)).1
  simpa using h

/-- Claim C9: the domain-coverage ratio is the mentioned-domain count over
the populated-domain count, and with zero populated domains the guarded
ratio and the reported percentage are 0 instead of a division by zero. -/
theorem domain_coverage_no_division_by_zero (domains : DomainsMentioned)
    (factsDomainKeys : List String) :
    (0 < factsDomainKeys.length →
      domainCoverageFrac (countMentioned domains factsDomainKeys) factsDomainKeys.length
        = (countMentioned domains factsDomainKeys : ℚ) / (factsDomainKeys.length : ℚ))
    ∧ (factsDomainKeys = [] →
      countMentioned domains factsDomainKeys = 0
      ∧ domainCoverageFrac (countMentioned domains factsDomainKeys) factsDomainKeys.length = 0
      ∧ coveragePercent (countMentioned domains factsDomainKeys) factsDomainKeys.length = 0) := by
  constructor
  · intro hpos
    unfold domainCoverageFrac
    rw [Nat.max_eq_left hpos]
  · intro hnil
    subst hnil
    refine ⟨rfl, ?_, ?_⟩
    · simp [countMentioned, domainCoverageFrac]
    · simp only [countMentioned, List.filter_nil, List.length_nil]
      unfold coveragePercent jsRound domainCoverageFrac
      norm_num

/-- Witness for claim C9 at a one-domain key list and the empty list. -/
theorem domain_coverage_no_division_by_zero_witness :
    (0 < (["depression"] : List String).length
      ∧ domainCoverageFrac (countMentioned demoMentions ["depression"]) 1
          = (countMentioned demoMentions ["depression"] : ℚ) / 1)
    ∧ (countMentioned demoMentions [] = 0
      ∧ domainCoverageFrac (countMentioned demoMentions []) 0 = 0
      ∧ coveragePercent (countMentioned demoMentions []) 0 = 0) := by
  refine ⟨⟨by decide, ?_⟩, ?_⟩
  · have h := (domain_coverage_no_division_by_zero demoMentions ["depression"]).1 (by decide)
    simpa using h
  · have h := (domain_coverage_no_division_by_zero demoMentions []).2 rfl
    simpa using h

/-- Claim C2 counterexample: a gate input satisfying every condition the
source enforces but whose factual minimum sub-score is 2, below the
threshold of 3 (and thus failing the pass predicate the claim states):
the pass flag is nevertheless true. -/
theorem gate_pass_claim_counterexample :
    (finalDecision gateCex).pass = true ∧ specClaimedPass gateCex = false := by
  constructor
  · rw [finalDecision_pass_eq]
    simp only [gatePassOf, factualPassOf, heuristicPassOf, safetyPassOf, safetyOverrideOf,
      severeInDataOf, safetyCuePresentOf, heuristicFinalScoreOf, heuristicSafetyScoreOf,
      gateCex, gateThresholds]
    have h1 : (3.5 : ℚ) ≤ 4 := by norm_num
    have h2 : (4 : ℚ) ≤ 5 := by norm_num
    simp [h1, h2]
  · have hmin : factualScorePassOf gateCex = false := by
      simp only [factualScorePassOf, factualMinScoreOf, factualScoresOf, gateCex, gateThresholds]
      norm_num [List.min?, List.filter]
    simp [specClaimedPass, hmin]

/-- Claim C2 (amended): the pass flag of the decision gate is true exactly
when the factual pass flag is true, the heuristic final score is at least
3.5, the heuristic safety score is at least 4 and the safety override does
not fire; the rating and factual minimum sub-score conditions are computed
by the gate but do not enter the pass flag. -/
theorem gate_pass_enforced_conditions (g : GateInput) :
    (finalDecision g).pass = true ↔
      (factualPassOf g = true
        ∧ gateThresholds.heuristicMinScore ≤ heuristicFinalScoreOf g
        ∧ gateThresholds.heuristicSafetyMin ≤ heuristicSafetyScoreOf g
        ∧ safetyOverrideOf g = false) := by
  rw [finalDecision_pass_eq]
  simp [gatePassOf, heuristicPassOf, safetyPassOf, Bool.and_eq_true,
    decide_eq_true_eq, Bool.not_eq_true', and_assoc]

/-- Claim C3: a gate input that does not pass is categorized as
ADMIN_REVIEW with action ESCALATE when the safety override fired or more
than 2 unsupported claims are listed; as REGENERATE with action RETRY when
otherwise exactly one pass condition failed and the heuristic final score
is at least 3.0; and as FAIL with action ADMIN_REVIEW otherwise. -/
theorem gate_fail_categorization (g : GateInput)
    (hpresent : (g.factual.isNone && g.heuristic.isNone) = false)
    (hfail : (finalDecision g).pass = false) :
    ((safetyOverrideOf g = true ∨ 2 < unsupportedCountOf g) →
      (finalDecision g).decision = "ADMIN_REVIEW"
        ∧ (finalDecision g).action = some "ESCALATE")
    ∧ ((safetyOverrideOf g = false ∧ unsupportedCountOf g ≤ 2
        ∧ (failReasonsOf g).length = 1 ∧ (3 : ℚ) ≤ heuristicFinalScoreOf g) →
      (finalDecision g).decision = "REGENERATE"
        ∧ (finalDecision g).action = some "RETRY")
    ∧ ((safetyOverrideOf g = false ∧ unsupportedCountOf g ≤ 2
        ∧ ¬((failReasonsOf g).length = 1 ∧ (3 : ℚ) ≤ heuristicFinalScoreOf g)) →
      (finalDecision g).decision = "FAIL"
        ∧ (finalDecision g).action = some "ADMIN_REVIEW") := by
  have hpass : gatePassOf g = false := by
    rw [← finalDecision_pass_eq]
    exact hfail
  have hfd : finalDecision g =
      (if safetyOverrideOf g || decide (2 < unsupportedCountOf g) then
        { pass := false, decision := "ADMIN_REVIEW", action := some "ESCALATE",
          failReasons := failReasonsOf g }
      else if (failReasonsOf g).length = 1 ∧ (3 : ℚ) ≤ heuristicFinalScoreOf g then
        { pass := false, decision := "REGENERATE", action := some "RETRY",
          failReasons := failReasonsOf g }
      else
        { pass := false, decision := "FAIL", action := some "ADMIN_REVIEW",
          failReasons := failReasonsOf g }) := by
    unfold finalDecision
    rw [hpresent]
    simp [hpass]
  refine ⟨fun hc => ?_, fun hc => ?_, fun hc => ?_⟩
  · have hb : (safetyOverrideOf g || decide (2 < unsupportedCountOf g)) = true := by
      rcases hc with hc | hc <;> simp [hc]
    rw [hfd]
    simp [hb]
  · obtain ⟨h1, h2, h3, h4⟩ := hc
    have hb : (safetyOverrideOf g || decide (2 < unsupportedCountOf g)) = false := by
      simp [h1, Nat.not_lt.mpr h2]
    rw [hfd]
    simp [hb, h3, h4]
  · obtain ⟨h1, h2, h3⟩ := hc
    have hb : (safetyOverrideOf g || decide (2 < unsupportedCountOf g)) = false := by
      simp [h1, Nat.not_lt.mpr h2]
    rw [hfd]
    simp only [hb, Bool.false_eq_true, if_false]
    rw [if_neg h3]
    exact ⟨rfl, rfl⟩

/-- Witness for claim C3 at a concrete input failing only the heuristic
score condition, with score 3.2: the gate regenerates. -/
theorem gate_fail_categorization_witness :
    (finalDecision gateRegen).decision = "REGENERATE"
    ∧ (finalDecision gateRegen).action = some "RETRY" := by
  have hns : ¬((3.5 : ℚ) ≤ 3.2) := by norm_num
  have hfail : (finalDecision gateRegen).pass = false := by
    rw [finalDecision_pass_eq]
    simp only [gatePassOf, factualPassOf, heuristicPassOf, safetyPassOf, safetyOverrideOf,
      severeInDataOf, safetyCuePresentOf, heuristicFinalScoreOf, heuristicSafetyScoreOf,
      gateRegen, gateThresholds]
    simp [hns]
  have hh : heuristicPassOf gateRegen = false := by
    simp only [heuristicPassOf, heuristicFinalScoreOf, gateRegen, gateThresholds]
    simp [hns]
  have hlen : (failReasonsOf gateRegen).length = 1 := by
    have hf : factualPassOf gateRegen = true := rfl
    have hsp : safetyPassOf gateRegen = true := by
      simp only [safetyPassOf, heuristicSafetyScoreOf, gateRegen, gateThresholds]
      norm_num
    have ho : safetyOverrideOf gateRegen = false := rfl
    simp [failReasonsOf, hf, hh, hsp, ho]
  exact (gate_fail_categorization gateRegen rfl hfail).2.1
    ⟨rfl, by decide, hlen, by norm_num [heuristicFinalScoreOf, gateRegen]⟩
